import Mathlib

/-
Verification of `Scripts/get_access_token.py`, a one-shot CLI utility that
acquires a Microsoft Graph access token via the MSAL library.

The script is embedded shallowly: the MSAL public-client library and the
clipboard are modelled as an explicit environment (`Env`), and one run of the
script is a pure function of that environment.  A run records, besides the
console output and the final outcome, the chronological list of token
acquisition calls made to the library (`AcqEvent`), so that policies about
when silent and interactive acquisition happen can be stated.

Python exceptions are modelled explicitly: the library may raise a
`KeyboardInterrupt` or an ordinary `Exception` (type `LibExc`); the script
itself additionally raises `SystemExit` through `sys.exit(1)` (type `PyExc`).
The `__main__` wrapper catches `KeyboardInterrupt` and `Exception` but not
`SystemExit`, exactly as in Python.  The clipboard call sits inside a local
`try/except Exception` handler, so it is modelled by an `Option String`
(`none` = copy succeeded, `some msg` = the handled exception's message).

A Python result dictionary is modelled by `ResultDict`: one `Option` field per
key the script reads, plus `hasOtherKeys` for keys it never reads (these still
count for Python's truthiness test `if not result:`).
-/

namespace GetAccessToken

/-- A cached MSAL account; the script reads only its `username` entry. -/
structure Account where
  username : String
deriving Repr, DecidableEq

/-- A token result dictionary as returned by the MSAL library.  Each field the
script reads is an `Option` (present or absent key); `account_username` models
the chain `result.get("account", {}).get("username", ...)`; `expires_in` is
kept as its printed string form; `hasOtherKeys` records whether the dictionary
holds any further keys, which matters only for Python truthiness. -/
structure ResultDict where
  access_token : Option String
  error : Option String
  error_description : Option String
  account_username : Option String
  expires_in : Option String
  hasOtherKeys : Bool
deriving Repr, DecidableEq

/-- An exception the external library (MSAL / browser flow) may raise:
a `KeyboardInterrupt` or an ordinary `Exception` carrying a message. -/
inductive LibExc where
  | keyboardInterrupt : LibExc
  | exception (msg : String) : LibExc
deriving Repr, DecidableEq

/-- An exception propagating out of `get_token`: a library exception, or the
`SystemExit` raised by the script's own `sys.exit(1)`. -/
inductive PyExc where
  | keyboardInterrupt : PyExc
  | exception (msg : String) : PyExc
  | systemExit (code : Nat) : PyExc
deriving Repr, DecidableEq

/-- Inject a library exception into the script-level exception type. -/
def LibExc.toPyExc : LibExc → PyExc
  | LibExc.keyboardInterrupt => PyExc.keyboardInterrupt
  | LibExc.exception m => PyExc.exception m

/-- One token-acquisition call made to the library, with the arguments the
script passes. -/
inductive AcqEvent where
  | silent (scopes : List String) (account : Account) : AcqEvent
  | interactive (scopes : List String) (prompt : String) : AcqEvent
deriving Repr, DecidableEq

/-- True exactly for interactive acquisition events. -/
def AcqEvent.isInteractive : AcqEvent → Bool
  | AcqEvent.interactive _ _ => true
  | AcqEvent.silent _ _ => false

/-- True exactly for silent acquisition events. -/
def AcqEvent.isSilentAcq : AcqEvent → Bool
  | AcqEvent.silent _ _ => true
  | AcqEvent.interactive _ _ => false

/-- The scopes argument of an acquisition event. -/
def AcqEvent.scopesOf : AcqEvent → List String
  | AcqEvent.silent s _ => s
  | AcqEvent.interactive s _ => s

/-- The environment of one run: the behaviour of the MSAL library and of the
clipboard.  `accounts` is the value of `app.get_accounts()`;
`silent a` is the behaviour of `app.acquire_token_silent(SCOPES, account=a)`
(`Except.ok none` models Python `None`); `interactive` is the behaviour of
`app.acquire_token_interactive(...)`; `clipboard` is `none` when
`pyperclip.copy` succeeds and `some msg` when it raises `Exception(msg)`. -/
structure Env where
  accounts : List Account
  silent : Account → Except LibExc (Option ResultDict)
  interactive : Except LibExc ResultDict
  clipboard : Option String

/-- Module constant `CLIENT_ID` of the script. -/
def CLIENT_ID : String := "14d82eec-204b-4c2f-b7e8-296a70dab67e"

/-- Module constant `TENANT_ID` of the script. -/
def TENANT_ID : String := "common"

/-- Module constant `SCOPES` of the script. -/
def SCOPES : List String :=
  ["https://graph.microsoft.com/EntitlementManagement.ReadWrite.All"]

/-- Python truthiness of a result dictionary: a dict is truthy iff it is
non-empty, i.e. holds at least one key. -/
def resultTruthy (r : ResultDict) : Bool :=
  r.access_token.isSome || r.error.isSome || r.error_description.isSome ||
    r.account_username.isSome || r.expires_in.isSome || r.hasOtherKeys

/-- Python truthiness of the variable `result` before the interactive
fallback: `None` and an empty dict are falsy. -/
def optTruthy : Option ResultDict → Bool
  | none => false
  | some r => resultTruthy r

/-- The record of one run of `get_token`: the application configuration used,
the chronological acquisition calls, the dictionary that reached the
classification test (if any), the console output (one entry per `print`), and
the outcome (returned token or propagated exception). -/
structure GetTokenRun where
  appClientId : String
  appAuthority : String
  events : List AcqEvent
  finalResult : Option ResultDict
  output : List String
  result : Except PyExc String
deriving Repr

/-- Lines printed by the success header (lines 52-54 of the script). -/
def successHeader (r : ResultDict) : List String :=
  ["\n✅ Authentication successful!",
   "   Account: " ++ r.account_username.getD "Unknown",
   "   Token expires in: " ++ r.expires_in.getD "Unknown" ++ " seconds"]

/-- Lines printed by the clipboard `try/except` block (lines 57-62). -/
def clipLines (clip : Option String) (token : String) : List String :=
  match clip with
  | none => ["\n✅ Token copied to clipboard!"]
  | some e => ["\n⚠️  Could not copy to clipboard: " ++ e,
               "\n📋 Your token:\n" ++ token ++ "\n"]

/-- Lines printed after the clipboard block on success (lines 65-71). -/
def exportLines (token : String) : List String :=
  ["\n💡 To set environment variable:",
   "   PowerShell:",
   "   $env:GRAPH_TOKEN = \"" ++ token ++ "\"",
   "\n   Bash/Zsh:",
   "   export GRAPH_TOKEN=\"" ++ token ++ "\"",
   "\n🚀 Deploy your catalog!!"]

/-- Lines printed by the failure branch (lines 75-77). -/
def failLines (r : ResultDict) : List String :=
  ["\n❌ Authentication failed!",
   "   Error: " ++ r.error.getD "Unknown error",
   "   Description: " ++ r.error_description.getD "No description"]

/-- The interactive fallback (lines 38-47): print the two banner lines and
call `acquire_token_interactive(scopes=SCOPES, prompt="select_account")`. -/
def goInteractive (env : Env) (out : List String) (evts : List AcqEvent) :
    List String × List AcqEvent × Except PyExc ResultDict :=
  let out2 := out ++ ["\n🌐 Opening browser for interactive authentication...",
                      "   Please sign in and grant consent when prompted."]
  let evts2 := evts ++ [AcqEvent.interactive SCOPES "select_account"]
  match env.interactive with
  | Except.error e => (out2, evts2, Except.error e.toPyExc)
  | Except.ok r => (out2, evts2, Except.ok r)

/-- Lines 20-47 of `get_token`: banner, account lookup, silent attempt with
the first cached account, and the `if not result:` interactive fallback.
Returns the output so far, the acquisition calls made, and either the result
dictionary reaching the classification test or the exception that aborted. -/
def preResult (env : Env) : List String × List AcqEvent × Except PyExc ResultDict :=
  let out1 := ["🔐 Authenticating to Microsoft Graph...",
               "   Scope: " ++ SCOPES.headD ""]
  match env.accounts with
  | [] => goInteractive env out1 []
  | a :: _ =>
      let out2 := out1 ++ ["\n✅ Found cached account: " ++ a.username,
                           "   Attempting silent authentication..."]
      let evts := [AcqEvent.silent SCOPES a]
      match env.silent a with
      | Except.error e => (out2, evts, Except.error e.toPyExc)
      | Except.ok (some r) =>
          if resultTruthy r then (out2, evts, Except.ok r)
          else goInteractive env out2 evts
      | Except.ok none => goInteractive env out2 evts

/-- Lines 49-78 of `get_token`: classify the result dictionary by the presence
of the key `access_token`; on success print the header, run the clipboard
block, print the export commands and return the token; on failure print the
error lines and raise `SystemExit(1)` via `sys.exit(1)`. -/
def classify (out : List String) (evts : List AcqEvent) (r : ResultDict)
    (clip : Option String) (auth : String) : GetTokenRun :=
  match r.access_token with
  | some token =>
      { appClientId := CLIENT_ID, appAuthority := auth, events := evts,
        finalResult := some r,
        output := out ++ successHeader r ++ clipLines clip token ++ exportLines token,
        result := Except.ok token }
  | none =>
      { appClientId := CLIENT_ID, appAuthority := auth, events := evts,
        finalResult := some r,
        output := out ++ failLines r,
        result := Except.error (PyExc.systemExit 1) }

/-- The function `get_token` of the script, as one run over an environment.
The application is constructed with `CLIENT_ID` and the authority URL built
from `TENANT_ID`; then the acquisition phase (`preResult`) runs, and its
result dictionary, when one is reached, is classified (`classify`). -/
def get_token (env : Env) : GetTokenRun :=
  let auth := "https://login.microsoftonline.com/" ++ TENANT_ID
  match preResult env with
  | (out, evts, Except.error e) =>
      { appClientId := CLIENT_ID, appAuthority := auth, events := evts,
        finalResult := none, output := out, result := Except.error e }
  | (out, evts, Except.ok r) => classify out evts r env.clipboard auth

/-- The `if __name__ == "__main__":` block: run `get_token`; a normal return
ends the process with status 0; `SystemExit(c)` is caught by neither handler
and ends the process with status `c`; `KeyboardInterrupt` prints the
cancellation message and exits 1; any other exception prints its message and
exits 1.  Returns the full console output and the process exit status. -/
def script_main (env : Env) : List String × Nat :=
  let run := get_token env
  match run.result with
  | Except.ok _ => (run.output, 0)
  | Except.error (PyExc.systemExit c) => (run.output, c)
  | Except.error PyExc.keyboardInterrupt =>
      (run.output ++ ["\n\n❌ Cancelled by user"], 1)
  | Except.error (PyExc.exception m) =>
      (run.output ++ ["\n❌ Error: " ++ m], 1)

/-- The acquisition phase never reads the clipboard, so it is invariant under
changing the clipboard behaviour. -/
lemma preResult_clip (env : Env) (c : Option String) :
    preResult { env with clipboard := c } = preResult env := rfl

/-- The acquisition events of a run are those recorded by the acquisition
phase. -/
lemma classify_events (out : List String) (evts : List AcqEvent) (r : ResultDict)
    (clip : Option String) (auth : String) : (classify out evts r clip auth).events = evts := by
  rcases h : r.access_token with _ | t <;> simp [classify, h]

/-- Classification always exposes the dictionary it classified. -/
lemma classify_finalResult (out : List String) (evts : List AcqEvent) (r : ResultDict)
    (clip : Option String) (auth : String) :
    (classify out evts r clip auth).finalResult = some r := by
  rcases h : r.access_token with _ | t <;> simp [classify, h]

/-- The outcome of classification is decided by the presence of the
`access_token` key alone. -/
lemma classify_result (out : List String) (evts : List AcqEvent) (r : ResultDict)
    (clip : Option String) (auth : String) :
    (classify out evts r clip auth).result =
      (match r.access_token with
       | some t => Except.ok t
       | none => Except.error (PyExc.systemExit 1)) := by
  rcases h : r.access_token with _ | t <;> simp [classify, h]

/-- The output produced by classification. -/
lemma classify_output (out : List String) (evts : List AcqEvent) (r : ResultDict)
    (clip : Option String) (auth : String) :
    (classify out evts r clip auth).output =
      (match r.access_token with
       | some t => out ++ successHeader r ++ clipLines clip t ++ exportLines t
       | none => out ++ failLines r) := by
  rcases h : r.access_token with _ | t <;> simp [classify, h]

/-- Classification records the application configuration. -/
lemma classify_app (out : List String) (evts : List AcqEvent) (r : ResultDict)
    (clip : Option String) (auth : String) :
    (classify out evts r clip auth).appClientId = CLIENT_ID ∧
      (classify out evts r clip auth).appAuthority = auth := by
  rcases h : r.access_token with _ | t <;> simp [classify, h]

/-- Decomposition of a run that reached the classification test: the
acquisition phase delivered exactly the classified dictionary. -/
lemma finalResult_spec (env : Env) (r : ResultDict)
    (h : (get_token env).finalResult = some r) :
    ∃ out evts, preResult env = (out, evts, Except.ok r) ∧
      get_token env =
        classify out evts r env.clipboard
          ("https://login.microsoftonline.com/" ++ TENANT_ID) := by
  rcases hp : preResult env with ⟨out, evts, res⟩
  cases res with
  | error e =>
      unfold get_token at h
      rw [hp] at h
      simp at h
  | ok r2 =>
      have hg : get_token env =
          classify out evts r2 env.clipboard
            ("https://login.microsoftonline.com/" ++ TENANT_ID) := by
        unfold get_token
        rw [hp]
      have hr : r2 = r := by
        rw [hg, classify_finalResult] at h
        exact Option.some.inj h
      subst hr
      exact ⟨out, evts, rfl, hg⟩

/-- A run that did not reach the classification test propagated a library
exception. -/
lemma finalResult_none_spec (env : Env)
    (h : (get_token env).finalResult = none) :
    ∃ out evts e, preResult env = (out, evts, Except.error e) ∧
      get_token env =
        { appClientId := CLIENT_ID,
          appAuthority := "https://login.microsoftonline.com/" ++ TENANT_ID,
          events := evts, finalResult := none, output := out,
          result := Except.error e } := by
  rcases hp : preResult env with ⟨out, evts, res⟩
  cases res with
  | error e =>
      refine ⟨out, evts, e, rfl, ?_⟩
      unfold get_token
      rw [hp]
  | ok r2 =>
      have hg : get_token env =
          classify out evts r2 env.clipboard
            ("https://login.microsoftonline.com/" ++ TENANT_ID) := by
        unfold get_token
        rw [hp]
      rw [hg, classify_finalResult] at h
      simp at h

/-- The events of a run are exactly the events of its acquisition phase. -/
lemma get_token_events (env : Env) :
    (get_token env).events = (preResult env).2.1 := by
  rcases hp : preResult env with ⟨out, evts, res⟩
  cases res with
  | error e =>
      unfold get_token
      rw [hp]
  | ok r2 =>
      unfold get_token
      rw [hp]
      simp [classify_events]

/-- Characterisation of the acquisition calls: a silent call with the first
cached account happens exactly when a cached account exists, and the
interactive call follows exactly when there is no cached account or the
silent call returned a falsy value. -/
lemma preResult_events (env : Env) :
    (preResult env).2.1 =
      (match env.accounts with
       | [] => [AcqEvent.interactive SCOPES "select_account"]
       | a :: _ =>
         match env.silent a with
         | Except.error _ => [AcqEvent.silent SCOPES a]
         | Except.ok o =>
           if optTruthy o then [AcqEvent.silent SCOPES a]
           else [AcqEvent.silent SCOPES a,
                 AcqEvent.interactive SCOPES "select_account"]) := by
  rcases ha : env.accounts with _ | ⟨a, l⟩
  · rcases hi : env.interactive with e | r <;>
      simp [preResult, goInteractive, ha, hi]
  · rcases hs : env.silent a with e | o
    · simp [preResult, ha, hs]
    · rcases o with _ | r
      · rcases hi : env.interactive with e | r2 <;>
          simp [preResult, goInteractive, ha, hs, hi, optTruthy]
      · cases ht : resultTruthy r with
        | true => simp [preResult, ha, hs, optTruthy, ht]
        | false =>
            rcases hi : env.interactive with e | r2 <;>
              simp [preResult, goInteractive, ha, hs, hi, optTruthy, ht]

/-- The application configuration of every run. -/
lemma get_token_app (env : Env) :
    (get_token env).appClientId = CLIENT_ID ∧
      (get_token env).appAuthority =
        "https://login.microsoftonline.com/" ++ TENANT_ID := by
  rcases hp : preResult env with ⟨out, evts, res⟩
  cases res with
  | error e =>
      unfold get_token
      rw [hp]
      exact ⟨rfl, rfl⟩
  | ok r =>
      unfold get_token
      rw [hp]
      exact classify_app out evts r env.clipboard _

/-- Every console line of the acquisition phase appears as a prefix of the
run's full output. -/
lemma get_token_output_prefix (env : Env) :
    ∃ suf, (get_token env).output = (preResult env).1 ++ suf := by
  rcases hp : preResult env with ⟨out, evts, res⟩
  cases res with
  | error e =>
      refine ⟨[], ?_⟩
      unfold get_token
      rw [hp]
      simp
  | ok r =>
      have hg : get_token env =
          classify out evts r env.clipboard
            ("https://login.microsoftonline.com/" ++ TENANT_ID) := by
        unfold get_token
        rw [hp]
      rcases h : r.access_token with _ | t
      · exact ⟨failLines r, by rw [hg, classify_output]; simp [h]⟩
      · exact ⟨successHeader r ++ clipLines env.clipboard t ++ exportLines t,
          by rw [hg, classify_output]; simp [h]⟩

/-- When a cached account exists, the acquisition phase prints the cached
account banner with the first account's username. -/
lemma preResult_out_cons (env : Env) (a : Account) (l : List Account)
    (h : env.accounts = a :: l) :
    ∃ tl, (preResult env).1 =
      ["🔐 Authenticating to Microsoft Graph...",
       "   Scope: " ++ SCOPES.headD "",
       "\n✅ Found cached account: " ++ a.username,
       "   Attempting silent authentication..."] ++ tl := by
  rcases hs : env.silent a with e | o
  · exact ⟨[], by simp [preResult, h, hs]⟩
  · rcases o with _ | r
    · rcases hi : env.interactive with e | r2 <;>
        exact ⟨["\n🌐 Opening browser for interactive authentication...",
                "   Please sign in and grant consent when prompted."],
          by simp [preResult, goInteractive, h, hs, hi]⟩
    · cases ht : resultTruthy r with
      | true => exact ⟨[], by simp [preResult, h, hs, ht]⟩
      | false =>
          rcases hi : env.interactive with e | r2 <;>
            exact ⟨["\n🌐 Opening browser for interactive authentication...",
                    "   Please sign in and grant consent when prompted."],
              by simp [preResult, goInteractive, h, hs, ht, hi]⟩

/-- An exception aborting the acquisition phase is a library exception, never
a `SystemExit`. -/
lemma preResult_error_lib (env : Env) (out : List String) (evts : List AcqEvent)
    (pe : PyExc) (hp : preResult env = (out, evts, Except.error pe)) :
    ∃ e : LibExc, pe = e.toPyExc := by
  rcases ha : env.accounts with _ | ⟨a, l⟩
  · rcases hi : env.interactive with e | r
    · refine ⟨e, ?_⟩
      simp [preResult, goInteractive, ha, hi] at hp
      exact hp.2.2.symm
    · simp [preResult, goInteractive, ha, hi] at hp
  · rcases hs : env.silent a with e | o
    · refine ⟨e, ?_⟩
      simp [preResult, ha, hs] at hp
      exact hp.2.2.symm
    · rcases o with _ | r
      · rcases hi : env.interactive with e | r2
        · refine ⟨e, ?_⟩
          simp [preResult, goInteractive, ha, hs, hi] at hp
          exact hp.2.2.symm
        · simp [preResult, goInteractive, ha, hs, hi] at hp
      · cases ht : resultTruthy r with
        | true => simp [preResult, ha, hs, ht] at hp
        | false =>
            rcases hi : env.interactive with e | r2
            · refine ⟨e, ?_⟩
              simp [preResult, goInteractive, ha, hs, ht, hi] at hp
              exact hp.2.2.symm
            · simp [preResult, goInteractive, ha, hs, ht, hi] at hp

/-- The script raises `SystemExit` only through `sys.exit(1)`. -/
lemma get_token_systemExit (env : Env) (c : Nat)
    (h : (get_token env).result = Except.error (PyExc.systemExit c)) : c = 1 := by
  rcases hp : preResult env with ⟨out, evts, res⟩
  cases res with
  | error pe =>
      unfold get_token at h
      rw [hp] at h
      simp at h
      obtain ⟨e, he⟩ := preResult_error_lib env out evts pe hp
      rw [h] at he
      cases e <;> simp [LibExc.toPyExc] at he
  | ok r =>
      unfold get_token at h
      rw [hp, classify_result] at h
      rcases ht : r.access_token with _ | t <;> rw [ht] at h <;> simp at h
      exact h.symm

/-- Running `get_token` under a modified clipboard still classifies the same
dictionary produced by the unchanged acquisition phase. -/
lemma get_token_clip (env : Env) (c : Option String) (out : List String)
    (evts : List AcqEvent) (r : ResultDict)
    (hp : preResult env = (out, evts, Except.ok r)) :
    get_token { env with clipboard := c } =
      classify out evts r c ("https://login.microsoftonline.com/" ++ TENANT_ID) := by
  unfold get_token
  rw [preResult_clip, hp]

/-- With no cached account, the only acquisition call is the interactive one
with forced account selection. -/
lemma events_nil (env : Env) (h : env.accounts = []) :
    (get_token env).events = [AcqEvent.interactive SCOPES "select_account"] := by
  simp [get_token_events, preResult_events, h]

/-- When the silent call raises, it is the only acquisition call. -/
lemma events_silent_err (env : Env) (a : Account) (l : List Account) (e : LibExc)
    (h : env.accounts = a :: l) (hs : env.silent a = Except.error e) :
    (get_token env).events = [AcqEvent.silent SCOPES a] := by
  simp [get_token_events, preResult_events, h, hs]

/-- When the silent call returns a truthy result, it is the only acquisition
call. -/
lemma events_silent_truthy (env : Env) (a : Account) (l : List Account)
    (o : Option ResultDict) (h : env.accounts = a :: l)
    (hs : env.silent a = Except.ok o) (ht : optTruthy o = true) :
    (get_token env).events = [AcqEvent.silent SCOPES a] := by
  simp [get_token_events, preResult_events, h, hs, ht]

/-- When the silent call returns a falsy result, the interactive call follows
it. -/
lemma events_silent_falsy (env : Env) (a : Account) (l : List Account)
    (o : Option ResultDict) (h : env.accounts = a :: l)
    (hs : env.silent a = Except.ok o) (ht : optTruthy o = false) :
    (get_token env).events =
      [AcqEvent.silent SCOPES a, AcqEvent.interactive SCOPES "select_account"] := by
  simp [get_token_events, preResult_events, h, hs, ht]

/-- A successful token result, as the interactive flow may return it. -/
def rTok : ResultDict :=
  { access_token := some "tok123", error := none, error_description := none,
    account_username := some "user@contoso.com", expires_in := some "3599",
    hasOtherKeys := false }

/-- Environment with no cached account where the interactive flow succeeds. -/
def envTok : Env :=
  { accounts := [], silent := fun _ => Except.ok none,
    interactive := Except.ok rTok, clipboard := none }

/-- A failure result carrying error and error_description keys. -/
def rErr : ResultDict :=
  { access_token := none, error := some "access_denied",
    error_description := some "user declined consent",
    account_username := none, expires_in := none, hasOtherKeys := false }

/-- Environment with no cached account where the interactive flow fails. -/
def envErr : Env :=
  { accounts := [], silent := fun _ => Except.ok none,
    interactive := Except.ok rErr, clipboard := none }

/-- An empty result dictionary: no access token and no error key. -/
def rEmpty : ResultDict :=
  { access_token := none, error := none, error_description := none,
    account_username := none, expires_in := none, hasOtherKeys := false }

/-- Environment where the interactive flow returns an empty dictionary. -/
def envEmpty : Env :=
  { accounts := [], silent := fun _ => Except.ok none,
    interactive := Except.ok rEmpty, clipboard := none }

/-- A result dictionary carrying both an access token and an error key. -/
def rBoth : ResultDict :=
  { access_token := some "tokBoth", error := some "interaction_required",
    error_description := some "AADSTS50076", account_username := none,
    expires_in := none, hasOtherKeys := false }

/-- Environment where the interactive flow returns `rBoth`. -/
def envBoth : Env :=
  { accounts := [], silent := fun _ => Except.ok none,
    interactive := Except.ok rBoth, clipboard := none }

/-- A cached account. -/
def acct1 : Account := { username := "cached@contoso.com" }

/-- Environment with one cached account whose silent acquisition succeeds. -/
def envSilentOk : Env :=
  { accounts := [acct1], silent := fun _ => Except.ok (some rTok),
    interactive := Except.ok rEmpty, clipboard := none }

/-- Environment where the interactive flow raises `KeyboardInterrupt`. -/
def envKI : Env :=
  { accounts := [], silent := fun _ => Except.ok none,
    interactive := Except.error LibExc.keyboardInterrupt, clipboard := none }

/-- C2: every result dictionary containing the key `access_token` is
classified as a success: `get_token` returns that token and the process exits
with status 0. -/
theorem access_token_success_exit_zero (env : Env) (r : ResultDict) (t : String)
    (h1 : (get_token env).finalResult = some r)
    (h2 : r.access_token = some t) :
    (get_token env).result = Except.ok t ∧ (script_main env).2 = 0 := by
  obtain ⟨out, evts, hp, hg⟩ := finalResult_spec env r h1
  have hres : (get_token env).result = Except.ok t := by
    rw [hg, classify_result]
    simp [h2]
  exact ⟨hres, by simp [script_main, hres]⟩

/-- C2 witness: the success environment `envTok`. -/
theorem access_token_success_exit_zero_witness :
    (get_token envTok).result = Except.ok "tok123" ∧ (script_main envTok).2 = 0 :=
  access_token_success_exit_zero envTok rTok "tok123" rfl rfl

/-- C3 counterexample: on a result dictionary carrying both an `error` key and
an `access_token` key, the script takes the success branch: it exits 0 and the
error is not printed, refuting the claim that every result with an `error`
field leads to exit status 1. -/
theorem error_field_not_fatal_counterexample :
    rBoth.error = some "interaction_required" ∧
    (get_token envBoth).finalResult = some rBoth ∧
    (get_token envBoth).result = Except.ok "tokBoth" ∧
    (script_main envBoth).2 = 0 ∧
    "   Error: interaction_required" ∉ (get_token envBoth).output :=
  ⟨rfl, rfl, rfl, rfl, by decide⟩

/-- C3 (amended): every result dictionary carrying an `error` key and no
`access_token` key makes `get_token` print the error and its description and
exit with status 1. -/
theorem error_without_token_exits_one (env : Env) (r : ResultDict) (msg : String)
    (h1 : (get_token env).finalResult = some r)
    (h2 : r.error = some msg)
    (h3 : r.access_token = none) :
    (get_token env).result = Except.error (PyExc.systemExit 1) ∧
    (script_main env).2 = 1 ∧
    ("   Error: " ++ msg) ∈ (get_token env).output ∧
    ("   Description: " ++ r.error_description.getD "No description")
      ∈ (get_token env).output := by
  obtain ⟨out, evts, hp, hg⟩ := finalResult_spec env r h1
  have hres : (get_token env).result = Except.error (PyExc.systemExit 1) := by
    rw [hg, classify_result]
    simp [h3]
  have hout : (get_token env).output = out ++ failLines r := by
    rw [hg, classify_output]
    simp [h3]
  refine ⟨hres, by simp [script_main, hres], ?_, ?_⟩
  · rw [hout]
    simp [failLines, h2]
  · rw [hout]
    simp [failLines]

/-- C3 amended witness: the failing environment `envErr`. -/
theorem error_without_token_exits_one_witness :
    (get_token envErr).result = Except.error (PyExc.systemExit 1) ∧
    (script_main envErr).2 = 1 ∧
    ("   Error: " ++ "access_denied") ∈ (get_token envErr).output ∧
    ("   Description: " ++ rErr.error_description.getD "No description")
      ∈ (get_token envErr).output :=
  error_without_token_exits_one envErr rErr "access_denied" rfl rfl rfl

/-- C6: a result dictionary without the key `access_token` makes the run fail
with exit status 1 even when it has no `error` key; in that case the
placeholder texts are printed.  Absence of the token alone decides failure. -/
theorem missing_token_decides_failure (env : Env) (r : ResultDict)
    (h1 : (get_token env).finalResult = some r)
    (h2 : r.access_token = none) :
    (get_token env).result = Except.error (PyExc.systemExit 1) ∧
    (script_main env).2 = 1 ∧
    (r.error = none → "   Error: Unknown error" ∈ (get_token env).output) ∧
    (r.error_description = none →
      "   Description: No description" ∈ (get_token env).output) := by
  obtain ⟨out, evts, hp, hg⟩ := finalResult_spec env r h1
  have hres : (get_token env).result = Except.error (PyExc.systemExit 1) := by
    rw [hg, classify_result]
    simp [h2]
  have hout : (get_token env).output = out ++ failLines r := by
    rw [hg, classify_output]
    simp [h2]
  refine ⟨hres, by simp [script_main, hres], ?_, ?_⟩
  · intro he
    rw [hout]
    simp [failLines, he]
  · intro hd
    rw [hout]
    simp [failLines, hd]

/-- C6 witness: the empty-dictionary environment `envEmpty`. -/
theorem missing_token_decides_failure_witness :
    (get_token envEmpty).result = Except.error (PyExc.systemExit 1) ∧
    (script_main envEmpty).2 = 1 ∧
    "   Error: Unknown error" ∈ (get_token envEmpty).output ∧
    "   Description: No description" ∈ (get_token envEmpty).output := by
  obtain ⟨h1, h2, h3, h4⟩ := missing_token_decides_failure envEmpty rEmpty rfl rfl
  exact ⟨h1, h2, h3 rfl, h4 rfl⟩

/-- C8: every successful run prints, for the two shell families, export
statements embedding the very token that is returned, whatever the clipboard
did. -/
theorem export_lines_both_shells (env : Env) (r : ResultDict) (t : String)
    (h1 : (get_token env).finalResult = some r)
    (h2 : r.access_token = some t) :
    (get_token env).result = Except.ok t ∧
    ("   $env:GRAPH_TOKEN = \"" ++ t ++ "\"") ∈ (get_token env).output ∧
    ("   export GRAPH_TOKEN=\"" ++ t ++ "\"") ∈ (get_token env).output := by
  obtain ⟨out, evts, hp, hg⟩ := finalResult_spec env r h1
  have hres : (get_token env).result = Except.ok t := by
    rw [hg, classify_result]
    simp [h2]
  have hout : (get_token env).output =
      out ++ successHeader r ++ clipLines env.clipboard t ++ exportLines t := by
    rw [hg, classify_output]
    simp [h2]
  refine ⟨hres, ?_, ?_⟩ <;> rw [hout] <;> simp [exportLines]

/-- C8 witness: the success environment `envTok`. -/
theorem export_lines_both_shells_witness :
    (get_token envTok).result = Except.ok "tok123" ∧
    ("   $env:GRAPH_TOKEN = \"" ++ "tok123" ++ "\"") ∈ (get_token envTok).output ∧
    ("   export GRAPH_TOKEN=\"" ++ "tok123" ++ "\"") ∈ (get_token envTok).output :=
  export_lines_both_shells envTok rTok "tok123" rfl rfl

/-- C1: in every run the silent acquisition comes first, using a cached
account, and the interactive login with forced account selection happens if
and only if there is no cached account or the silent acquisition failed (that
is, returned a falsy value); when the silent acquisition succeeds, no
interactive login happens. -/
theorem silent_first_interactive_fallback (env : Env) :
    ((get_token env).events.any AcqEvent.isInteractive = true ↔
      (env.accounts = [] ∨ ∃ a l o, env.accounts = a :: l ∧
        env.silent a = Except.ok o ∧ optTruthy o = false))
    ∧ (∀ a l, env.accounts = a :: l →
        ∃ tl, (get_token env).events = AcqEvent.silent SCOPES a :: tl)
    ∧ (env.accounts = [] →
        (get_token env).events = [AcqEvent.interactive SCOPES "select_account"])
    ∧ (∀ a l o, env.accounts = a :: l → env.silent a = Except.ok o →
        optTruthy o = true → (get_token env).events = [AcqEvent.silent SCOPES a])
    ∧ (∀ s p, AcqEvent.interactive s p ∈ (get_token env).events →
        p = "select_account") := by
  refine ⟨⟨?_, ?_⟩, ?_, ?_, ?_, ?_⟩
  · intro h
    rcases ha : env.accounts with _ | ⟨a, l⟩
    · exact Or.inl rfl
    · rcases hs : env.silent a with e | o
      · rw [events_silent_err env a l e ha hs] at h
        simp [AcqEvent.isInteractive] at h
      · cases hot : optTruthy o with
        | true =>
            rw [events_silent_truthy env a l o ha hs hot] at h
            simp [AcqEvent.isInteractive] at h
        | false => exact Or.inr ⟨a, l, o, rfl, hs, hot⟩
  · rintro (h | ⟨a, l, o, ha, hs, hot⟩)
    · rw [events_nil env h]
      simp [AcqEvent.isInteractive]
    · rw [events_silent_falsy env a l o ha hs hot]
      simp [AcqEvent.isInteractive]
  · intro a l ha
    rcases hs : env.silent a with e | o
    · exact ⟨[], events_silent_err env a l e ha hs⟩
    · cases hot : optTruthy o with
      | true => exact ⟨[], events_silent_truthy env a l o ha hs hot⟩
      | false =>
          exact ⟨[AcqEvent.interactive SCOPES "select_account"],
            events_silent_falsy env a l o ha hs hot⟩
  · intro h
    exact events_nil env h
  · intro a l o ha hs hot
    exact events_silent_truthy env a l o ha hs hot
  · intro s p hp
    rcases ha : env.accounts with _ | ⟨a, l⟩
    · rw [events_nil env ha] at hp
      simp at hp
      exact hp.2
    · rcases hs : env.silent a with e | o
      · rw [events_silent_err env a l e ha hs] at hp
        simp at hp
      · cases hot : optTruthy o with
        | true =>
            rw [events_silent_truthy env a l o ha hs hot] at hp
            simp at hp
        | false =>
            rw [events_silent_falsy env a l o ha hs hot] at hp
            simp at hp
            exact hp.2

/-- C1 witness: silent success on the cached account makes it the only
acquisition call. -/
theorem silent_first_interactive_fallback_witness :
    (get_token envSilentOk).events = [AcqEvent.silent SCOPES acct1] :=
  (silent_first_interactive_fallback envSilentOk).2.2.2.1 acct1 [] (some rTok)
    rfl rfl rfl

/-- C4: on a successful authentication result, the clipboard behaviour never
changes the classification: with a working clipboard and with a failing one
the same token is returned and the process exits 0; the outputs share prefix
and suffix and differ only in the clipboard block, where the failing run warns
and prints the token in plaintext. -/
theorem clipboard_failure_preserves_success (env : Env) (msg : String)
    (r : ResultDict) (t : String)
    (h1 : (get_token env).finalResult = some r)
    (h2 : r.access_token = some t) :
    (get_token { env with clipboard := none }).result = Except.ok t ∧
    (get_token { env with clipboard := some msg }).result = Except.ok t ∧
    (script_main { env with clipboard := none }).2 = 0 ∧
    (script_main { env with clipboard := some msg }).2 = 0 ∧
    ∃ pre,
      (get_token { env with clipboard := none }).output =
        pre ++ ["\n✅ Token copied to clipboard!"] ++ exportLines t ∧
      (get_token { env with clipboard := some msg }).output =
        pre ++ ["\n⚠️  Could not copy to clipboard: " ++ msg,
                "\n📋 Your token:\n" ++ t ++ "\n"] ++ exportLines t := by
  obtain ⟨out, evts, hp, hg⟩ := finalResult_spec env r h1
  have hgn := get_token_clip env none out evts r hp
  have hgs := get_token_clip env (some msg) out evts r hp
  have hrn : (get_token { env with clipboard := none }).result = Except.ok t := by
    rw [hgn, classify_result]
    simp [h2]
  have hrs : (get_token { env with clipboard := some msg }).result = Except.ok t := by
    rw [hgs, classify_result]
    simp [h2]
  refine ⟨hrn, hrs, by simp [script_main, hrn], by simp [script_main, hrs],
    out ++ successHeader r, ?_, ?_⟩
  · rw [hgn, classify_output]
    simp [h2, clipLines, List.append_assoc]
  · rw [hgs, classify_output]
    simp [h2, clipLines, List.append_assoc]

/-- C4 witness: a failing clipboard on the success environment still returns
the token with exit status 0. -/
theorem clipboard_failure_preserves_success_witness :
    (get_token { envTok with clipboard := some "clipboard offline" }).result =
      Except.ok "tok123" ∧
    (script_main { envTok with clipboard := some "clipboard offline" }).2 = 0 :=
  ⟨(clipboard_failure_preserves_success envTok "clipboard offline" rTok "tok123"
      rfl rfl).2.1,
   (clipboard_failure_preserves_success envTok "clipboard offline" rTok "tok123"
      rfl rfl).2.2.2.1⟩

/-- C5: the process exit status is 0 exactly on success and 1 in every failure
case: authentication failure (the script's own `sys.exit(1)`), user
interruption (with the cancellation message), and any other exception (with
the error message). -/
theorem exit_status_policy (env : Env) :
    ((script_main env).2 = 0 ↔ ∃ t, (get_token env).result = Except.ok t)
    ∧ ((script_main env).2 = 0 ∨ (script_main env).2 = 1)
    ∧ ((get_token env).result = Except.error PyExc.keyboardInterrupt →
        (script_main env).2 = 1 ∧
        (script_main env).1 = (get_token env).output ++ ["\n\n❌ Cancelled by user"])
    ∧ (∀ m, (get_token env).result = Except.error (PyExc.exception m) →
        (script_main env).2 = 1 ∧
        (script_main env).1 = (get_token env).output ++ ["\n❌ Error: " ++ m])
    ∧ (∀ c, (get_token env).result = Except.error (PyExc.systemExit c) →
        c = 1 ∧ (script_main env).2 = 1) := by
  rcases hres : (get_token env).result with e | t
  · cases e with
    | keyboardInterrupt => refine ⟨?_, ?_, ?_, ?_, ?_⟩ <;> simp [script_main, hres]
    | exception m => refine ⟨?_, ?_, ?_, ?_, ?_⟩ <;> simp [script_main, hres]
    | systemExit c =>
        have hc : c = 1 := get_token_systemExit env c hres
        subst hc
        refine ⟨?_, ?_, ?_, ?_, ?_⟩ <;> simp [script_main, hres]
  · refine ⟨?_, ?_, ?_, ?_, ?_⟩ <;> simp [script_main, hres]

/-- C5 witness: a `KeyboardInterrupt` raised by the browser flow yields exit
status 1 and the cancellation message. -/
theorem exit_status_policy_witness :
    (script_main envKI).2 = 1 ∧
    (script_main envKI).1 = (get_token envKI).output ++ ["\n\n❌ Cancelled by user"] :=
  (exit_status_policy envKI).2.2.1 rfl

/-- C7: no retries beyond the single silent-to-interactive fallback: every run
makes at most one silent call, at most one interactive call, and at most two
acquisition calls in total. -/
theorem no_retries (env : Env) :
    ((get_token env).events.filter AcqEvent.isSilentAcq).length ≤ 1 ∧
    ((get_token env).events.filter AcqEvent.isInteractive).length ≤ 1 ∧
    (get_token env).events.length ≤ 2 := by
  rcases ha : env.accounts with _ | ⟨a, l⟩
  · rw [events_nil env ha]
    refine ⟨?_, ?_, ?_⟩ <;> simp [AcqEvent.isSilentAcq, AcqEvent.isInteractive]
  · rcases hs : env.silent a with e | o
    · rw [events_silent_err env a l e ha hs]
      refine ⟨?_, ?_, ?_⟩ <;> simp [AcqEvent.isSilentAcq, AcqEvent.isInteractive]
    · cases hot : optTruthy o with
      | true =>
          rw [events_silent_truthy env a l o ha hs hot]
          refine ⟨?_, ?_, ?_⟩ <;> simp [AcqEvent.isSilentAcq, AcqEvent.isInteractive]
      | false =>
          rw [events_silent_falsy env a l o ha hs hot]
          refine ⟨?_, ?_, ?_⟩ <;> simp [AcqEvent.isSilentAcq, AcqEvent.isInteractive]

/-- C7 witness: the success environment `envTok`. -/
theorem no_retries_witness :
    ((get_token envTok).events.filter AcqEvent.isSilentAcq).length ≤ 1 ∧
    ((get_token envTok).events.filter AcqEvent.isInteractive).length ≤ 1 ∧
    (get_token envTok).events.length ≤ 2 :=
  no_retries envTok

/-- C9: the credential request is fixed for every run: the client id is the
literal constant, the tenant is "common" and builds the authority URL, one
single scope is requested, and every acquisition call passes exactly that
scope list. -/
theorem credential_request_constant (env : Env) :
    (get_token env).appClientId = CLIENT_ID ∧
    CLIENT_ID = "14d82eec-204b-4c2f-b7e8-296a70dab67e" ∧
    (get_token env).appAuthority = "https://login.microsoftonline.com/" ++ TENANT_ID ∧
    TENANT_ID = "common" ∧
    SCOPES.length = 1 ∧
    (∀ e ∈ (get_token env).events, e.scopesOf = SCOPES) := by
  refine ⟨(get_token_app env).1, rfl, (get_token_app env).2, rfl, rfl, ?_⟩
  intro ev hev
  rcases ha : env.accounts with _ | ⟨a, l⟩
  · rw [events_nil env ha] at hev
    simp at hev
    subst hev
    rfl
  · rcases hs : env.silent a with e | o
    · rw [events_silent_err env a l e ha hs] at hev
      simp at hev
      subst hev
      rfl
    · cases hot : optTruthy o with
      | true =>
          rw [events_silent_truthy env a l o ha hs hot] at hev
          simp at hev
          subst hev
          rfl
      | false =>
          rw [events_silent_falsy env a l o ha hs hot] at hev
          simp at hev
          rcases hev with hev | hev <;> subst hev <;> rfl

/-- C9 witness: the success environment `envTok`. -/
theorem credential_request_constant_witness :
    (get_token envTok).appClientId = CLIENT_ID ∧
    CLIENT_ID = "14d82eec-204b-4c2f-b7e8-296a70dab67e" ∧
    (get_token envTok).appAuthority = "https://login.microsoftonline.com/" ++ TENANT_ID ∧
    TENANT_ID = "common" ∧
    SCOPES.length = 1 :=
  ⟨(credential_request_constant envTok).1,
   (credential_request_constant envTok).2.1,
   (credential_request_constant envTok).2.2.1,
   (credential_request_constant envTok).2.2.2.1,
   (credential_request_constant envTok).2.2.2.2.1⟩

/-- C10: when cached accounts exist, the silent acquisition is attempted only
with the first one, and that account's username is the one printed in the
cached-account banner. -/
theorem first_cached_account_only (env : Env) (a : Account) (l : List Account)
    (h : env.accounts = a :: l) :
    (∀ s b, AcqEvent.silent s b ∈ (get_token env).events → b = a) ∧
    ("\n✅ Found cached account: " ++ a.username) ∈ (get_token env).output := by
  constructor
  · intro s b hb
    rcases hs : env.silent a with e | o
    · rw [events_silent_err env a l e h hs] at hb
      simp at hb
      exact hb.2
    · cases hot : optTruthy o with
      | true =>
          rw [events_silent_truthy env a l o h hs hot] at hb
          simp at hb
          exact hb.2
      | false =>
          rw [events_silent_falsy env a l o h hs hot] at hb
          simp at hb
          exact hb.2
  · obtain ⟨suf, hsuf⟩ := get_token_output_prefix env
    obtain ⟨tl, htl⟩ := preResult_out_cons env a l h
    rw [hsuf, htl]
    simp

/-- C10 witness: the cached-account banner is printed for `acct1`. -/
theorem first_cached_account_only_witness :
    ("\n✅ Found cached account: " ++ acct1.username) ∈ (get_token envSilentOk).output :=
  (first_cached_account_only envSilentOk acct1 [] rfl).2

end GetAccessToken
